import Mathlib

/-!
Shallow embedding of `contracts/babylon/src/ibc.rs`: the IBC channel
handshake, the packet-receive pipeline with its error-to-acknowledgement
conversion, and the BTC timestamp / BTC staking packet handlers, together
with proofs of the specified properties.
-/

namespace BabylonIbc

/-- IBC channel ordering, as in `cosmwasm_std::IbcOrder`. -/
inductive IbcOrder where
  | unordered
  | ordered
deriving DecidableEq

/-- Contract-level errors (`ContractError` variants reached from `ibc.rs`). -/
inductive ContractError where
  | ibcUnorderedChannel
  | ibcInvalidCounterPartyVersion (version : String)
  | ibcUnsupportedMethod
deriving DecidableEq

/-- Standard errors (`cosmwasm_std::StdError`) as reached from this file:
generic errors and store-lookup misses. -/
inductive StdError where
  | genericErr (msg : String)
  | notFound (kind : String)
deriving DecidableEq

/-- Display formatting of `StdError`, used when the receive pipeline
formats the error cause into the acknowledgement message. -/
def stdErrorFmt : StdError → String
  | .genericErr m => "Generic error: " ++ m
  | .notFound k => k ++ " not found"

/-- The fixed protocol version constant `IBC_VERSION` of `ibc.rs`. -/
def IBC_VERSION : String := "zoneconcierge-1"

/-- The fixed ordering requirement `IBC_ORDERING` of `ibc.rs`. -/
def IBC_ORDERING : IbcOrder := .ordered

/-- Channel-open message: `msg.channel().order` together with the optional
`msg.counterparty_version()` (present on `OpenTry`, absent on `OpenInit`). -/
structure IbcChannelOpenMsg where
  order : IbcOrder
  counterparty_version : Option String
deriving DecidableEq

/-- The ibcv3 channel-open response carrying the negotiated version. -/
structure Ibc3ChannelOpenResponse where
  version : String
deriving DecidableEq

/-- `ibc_channel_open` from `ibc.rs`: rejects non-ordered channels, then
rejects a present counterparty version different from `IBC_VERSION`, and
otherwise returns `IBC_VERSION` as the locally required version. -/
def ibc_channel_open (msg : IbcChannelOpenMsg) :
    Except ContractError (Option Ibc3ChannelOpenResponse) :=
  if msg.order ≠ IBC_ORDERING then
    .error ContractError.ibcUnorderedChannel
  else
    match msg.counterparty_version with
    | some counter_version =>
        if counter_version ≠ IBC_VERSION then
          .error (ContractError.ibcInvalidCounterPartyVersion IBC_VERSION)
        else
          .ok (some { version := IBC_VERSION })
    | none => .ok (some { version := IBC_VERSION })

instance {ε α : Type} [DecidableEq ε] [DecidableEq α] : DecidableEq (Except ε α) := by
  intro a b
  cases a <;> cases b
  case error.error e e' =>
    exact if h : e = e' then .isTrue (by rw [h]) else .isFalse (by simp [h])
  case error.ok e a => exact .isFalse (by simp)
  case ok.error a e => exact .isFalse (by simp)
  case ok.ok a a' =>
    exact if h : a = a' then .isTrue (by rw [h]) else .isFalse (by simp [h])

/-! Wire-side (protobuf-generated) staking types, as used field-by-field in
`handle_btc_staking`. Byte fields are `List Nat`. -/

namespace Proto

/-- Proto finality-provider description, fields as read in `ibc.rs`. -/
structure FinalityProviderDescription where
  moniker : String
  identity : String
  website : String
  security_contact : String
  details : String
deriving DecidableEq

/-- Proto proof of possession, fields as read in `ibc.rs`. -/
structure ProofOfPossessionBtc where
  btc_sig_type : Int
  btc_sig : List Nat
deriving DecidableEq

/-- Proto new-finality-provider record, fields as read in `ibc.rs`. -/
structure NewFinalityProvider where
  description : Option FinalityProviderDescription
  commission : String
  addr : String
  btc_pk_hex : String
  pop : Option ProofOfPossessionBtc
  consumer_id : String
deriving DecidableEq

/-- Proto covenant adaptor-signature bundle, fields as read in `ibc.rs`. -/
structure CovenantAdaptorSignatures where
  cov_pk : List Nat
  adaptor_sigs : List (List Nat)
deriving DecidableEq

/-- Proto signature-info pair, fields as read in `ibc.rs`. -/
structure SignatureInfo where
  pk : List Nat
  sig : List Nat
deriving DecidableEq

/-- Proto undelegation info, fields as read in `ibc.rs`. -/
structure BtcUndelegationInfo where
  unbonding_tx : List Nat
  delegator_unbonding_sig : List Nat
  covenant_unbonding_sig_list : List SignatureInfo
  slashing_tx : List Nat
  delegator_slashing_sig : List Nat
  covenant_slashing_sigs : List CovenantAdaptorSignatures
deriving DecidableEq

/-- Proto active BTC delegation record, fields as read in `ibc.rs`. -/
structure ActiveBtcDelegation where
  staker_addr : String
  btc_pk_hex : String
  fp_btc_pk_list : List String
  start_height : Nat
  end_height : Nat
  total_sat : Nat
  staking_tx : List Nat
  slashing_tx : List Nat
  delegator_slashing_sig : List Nat
  covenant_sigs : List CovenantAdaptorSignatures
  staking_output_idx : Nat
  unbonding_time : Nat
  undelegation_info : Option BtcUndelegationInfo
  params_version : Nat
deriving DecidableEq

/-- Proto unbonded BTC delegation record, fields as read in `ibc.rs`. -/
structure UnbondedBtcDelegation where
  staking_tx_hash : String
  unbonding_tx_sig : List Nat
deriving DecidableEq

/-- Proto `BtcStakingIbcPacket`, fields as read in `ibc.rs`. -/
structure BtcStakingIbcPacket where
  new_fp : List NewFinalityProvider
  active_del : List ActiveBtcDelegation
  unbonded_del : List UnbondedBtcDelegation
deriving DecidableEq

end Proto

/-- Proto `BtcTimestamp`: opaque proof-carrying payload, handled by the
external timestamp-processing collaborator. -/
structure BtcTimestamp where
  raw : List Nat
deriving DecidableEq

/-! Call-argument (`babylon_apis::btc_staking_api`) staking types. -/

/-- Fixed-point decimal with 18 fractional digits (`cosmwasm_std::Decimal`),
represented by its atomics value. -/
structure Decimal where
  atomics : Nat
deriving DecidableEq

/-- Parse a digit string into a `Nat` bounded by `Uint128`, as
`str::parse::<Uint128>` does on the inputs reached from `ibc.rs`. -/
def parseU128 (s : String) : Option Nat :=
  if s.length = 0 ∨ ¬ s.data.all Char.isDigit then none
  else
    let n := s.data.foldl (fun acc c => acc * 10 + (c.toNat - 48)) 0
    if n < 2 ^ 128 then some n else none

/-- Decimal parsing (`cosmwasm_std::Decimal::from_str`): whole and optional
fractional digit parts split on a dot, at most 18 fractional digits, value
expressed in `10 ^ 18` atomics, bounded by `Uint128`. -/
def Decimal.from_str (s : String) : Except StdError Decimal :=
  match (s.data.splitOn '.').map String.mk with
  | [whole_part] => do
      match parseU128 whole_part with
      | none => .error (StdError.genericErr "Error parsing whole")
      | some whole =>
          if whole * 10 ^ 18 < 2 ^ 128 then .ok ⟨whole * 10 ^ 18⟩
          else .error (StdError.genericErr "Value too big")
  | [whole_part, fractional_part] => do
      match parseU128 whole_part with
      | none => .error (StdError.genericErr "Error parsing whole")
      | some whole =>
          match parseU128 fractional_part with
          | none => .error (StdError.genericErr "Error parsing fractional")
          | some fractional =>
              if fractional_part.length > 18 then
                .error (StdError.genericErr "Cannot parse more than 18 fractional digits")
              else
                let atomics := whole * 10 ^ 18 + fractional * 10 ^ (18 - fractional_part.length)
                if atomics < 2 ^ 128 then .ok ⟨atomics⟩
                else .error (StdError.genericErr "Value too big")
  | _ => .error (StdError.genericErr "Unexpected number of dots")

/-- Api finality-provider description. -/
structure FinalityProviderDescription where
  moniker : String
  identity : String
  website : String
  security_contact : String
  details : String
deriving DecidableEq

/-- Api proof of possession; the signature is a binary blob. -/
structure ProofOfPossessionBtc where
  btc_sig_type : Int
  btc_sig : List Nat
deriving DecidableEq

/-- Api new-finality-provider record with parsed decimal commission. -/
structure NewFinalityProvider where
  description : Option FinalityProviderDescription
  commission : Decimal
  addr : String
  btc_pk_hex : String
  pop : Option ProofOfPossessionBtc
  consumer_id : String
deriving DecidableEq

/-- Api covenant adaptor-signature bundle. -/
structure CovenantAdaptorSignatures where
  cov_pk : List Nat
  adaptor_sigs : List (List Nat)
deriving DecidableEq

/-- Api signature-info pair. -/
structure SignatureInfo where
  pk : List Nat
  sig : List Nat
deriving DecidableEq

/-- Api undelegation info. -/
structure BtcUndelegationInfo where
  unbonding_tx : List Nat
  delegator_unbonding_sig : List Nat
  covenant_unbonding_sig_list : List SignatureInfo
  slashing_tx : List Nat
  delegator_slashing_sig : List Nat
  covenant_slashing_sigs : List CovenantAdaptorSignatures
deriving DecidableEq

/-- Api active BTC delegation record. -/
structure ActiveBtcDelegation where
  staker_addr : String
  btc_pk_hex : String
  fp_btc_pk_list : List String
  start_height : Nat
  end_height : Nat
  total_sat : Nat
  staking_tx : List Nat
  slashing_tx : List Nat
  delegator_slashing_sig : List Nat
  covenant_sigs : List CovenantAdaptorSignatures
  staking_output_idx : Nat
  unbonding_time : Nat
  undelegation_info : Option BtcUndelegationInfo
  params_version : Nat
deriving DecidableEq

/-- Api unbonded BTC delegation record. -/
structure UnbondedBtcDelegation where
  staking_tx_hash : String
  unbonding_tx_sig : List Nat
deriving DecidableEq

/-- Modelled from the spec: the unrouted slashed-delegations category of
`babylon_apis::btc_staking_api` (crate not under `src/`); its shape is
irrelevant here because the source always emits an empty sequence for it. -/
structure SlashedBtcDelegation where
  staking_tx_hash : String
deriving DecidableEq

/-- The `ExecuteMsg::BtcStaking` call argument built by `handle_btc_staking`. -/
inductive ExecuteMsg where
  | btcStaking (new_fp : List NewFinalityProvider)
      (active_del : List ActiveBtcDelegation)
      (slashed_del : List SlashedBtcDelegation)
      (unbonded_del : List UnbondedBtcDelegation)
deriving DecidableEq

/-! Translation from the wire representation into the call-argument
representation, exactly as written inline in `handle_btc_staking`. -/

/-- Conversion of one proto new-finality-provider record; the commission
string is parsed as a decimal and may fail. -/
def translate_new_fp (fp : Proto.NewFinalityProvider) : Except StdError NewFinalityProvider := do
  let commission ← Decimal.from_str fp.commission
  .ok
    { description := fp.description.map (fun d =>
        { moniker := d.moniker
          identity := d.identity
          website := d.website
          security_contact := d.security_contact
          details := d.details })
      commission := commission
      addr := fp.addr
      btc_pk_hex := fp.btc_pk_hex
      pop := fp.pop.map (fun pop =>
        { btc_sig_type := pop.btc_sig_type
          btc_sig := pop.btc_sig })
      consumer_id := fp.consumer_id }

/-- Conversion of one proto covenant adaptor-signature bundle. -/
def translate_covenant_sigs (s : Proto.CovenantAdaptorSignatures) : CovenantAdaptorSignatures :=
  { cov_pk := s.cov_pk
    adaptor_sigs := s.adaptor_sigs.map (fun a => a) }

/-- Conversion of one proto signature-info pair. -/
def translate_sig_info (s : Proto.SignatureInfo) : SignatureInfo :=
  { pk := s.pk, sig := s.sig }

/-- Conversion of one proto active-delegation record (total). -/
def translate_active_del (d : Proto.ActiveBtcDelegation) : ActiveBtcDelegation :=
  { staker_addr := d.staker_addr
    btc_pk_hex := d.btc_pk_hex
    fp_btc_pk_list := d.fp_btc_pk_list
    start_height := d.start_height
    end_height := d.end_height
    total_sat := d.total_sat
    staking_tx := d.staking_tx
    slashing_tx := d.slashing_tx
    delegator_slashing_sig := d.delegator_slashing_sig
    covenant_sigs := d.covenant_sigs.map translate_covenant_sigs
    staking_output_idx := d.staking_output_idx
    unbonding_time := d.unbonding_time
    undelegation_info := d.undelegation_info.map (fun ui =>
      { unbonding_tx := ui.unbonding_tx
        delegator_unbonding_sig := ui.delegator_unbonding_sig
        covenant_unbonding_sig_list := ui.covenant_unbonding_sig_list.map translate_sig_info
        slashing_tx := ui.slashing_tx
        delegator_slashing_sig := ui.delegator_slashing_sig
        covenant_slashing_sigs := ui.covenant_slashing_sigs.map translate_covenant_sigs })
    params_version := d.params_version }

/-- Conversion of one proto unbonded-delegation record (total). -/
def translate_unbonded_del (u : Proto.UnbondedBtcDelegation) : UnbondedBtcDelegation :=
  { staking_tx_hash := u.staking_tx_hash
    unbonding_tx_sig := u.unbonding_tx_sig }

/-! Contract state, responses, and the packet handlers. -/

/-- The contract `Config` as read on this path: the optional btc-staking
contract address and the notify-cosmos-zone flag. -/
structure Config where
  btc_staking : Option String
  notify_cosmos_zone : Bool
deriving DecidableEq

/-- Contract storage as visible to this path: the stored `Config` item. -/
structure Storage where
  config : Option Config
deriving DecidableEq

/-- Loading `CONFIG` from storage (`Item::load`): fails with a not-found
error when the item is absent. -/
def CONFIG_load (st : Storage) : Except StdError Config :=
  match st.config with
  | some cfg => .ok cfg
  | none => .error (StdError.notFound "babylon_contract::state::config::Config")

/-- Modelled from the spec: the opaque `BabylonMsg` destined for the Cosmos
zone, produced by the external timestamp-processing collaborator
(`babylon_bindings` is not under `src/`). -/
structure BabylonMsg where
  payload : String
deriving DecidableEq

/-- Outbound messages a receive response may carry: a wasm execute call to
another contract, or a Babylon custom message. -/
inductive OutMsg where
  | wasmExecute (contract_addr : String) (msg : ExecuteMsg) (funds : List Nat)
  | babylon (msg : BabylonMsg)
deriving DecidableEq

/-- The acknowledgement envelope (`cosmwasm_std::StdAck`). -/
inductive StdAck where
  | success (data : List Nat)
  | error (msg : String)
deriving DecidableEq

/-- An event attached to a response. -/
structure Event where
  ty : String
  attributes : List (String × String)
deriving DecidableEq

/-- The IBC receive response: acknowledgement plus accumulated messages,
attributes and events. -/
structure IbcReceiveResponse where
  ack : StdAck
  messages : List OutMsg
  attributes : List (String × String)
  events : List Event
deriving DecidableEq

/-- The type of the external timestamp-processing collaborator
(`crate::state::handle_btc_timestamp`, out of scope): verifies the BTC
timestamp, updates state, and may yield one message for the Cosmos zone. -/
def TimestampProcessor : Type :=
  Storage → BtcTimestamp → Except StdError (Option BabylonMsg)

/-- `handle_btc_timestamp` from `ibc.rs`: loads the config, delegates to the
timestamp collaborator, and includes the optional returned message only
when `notify_cosmos_zone` is set. -/
def handle_btc_timestamp (process : TimestampProcessor) (st : Storage)
    (btc_ts : BtcTimestamp) : Except StdError IbcReceiveResponse := do
  let cfg ← CONFIG_load st
  let msg_option ← process st btc_ts
  let resp : IbcReceiveResponse :=
    { ack := StdAck.success []
      messages := []
      attributes := [("action", "receive_btc_timestamp")]
      events := [] }
  match msg_option with
  | some msg =>
      if cfg.notify_cosmos_zone then
        .ok { resp with messages := resp.messages ++ [OutMsg.babylon msg] }
      else
        .ok resp
  | none => .ok resp

/-- The `Option::ok_or` combinator as used on this path: a present value
succeeds, an absent one fails with the given error. -/
def option_ok_or {α : Type} (e : StdError) : Option α → Except StdError α
  | some a => .ok a
  | none => .error e

/-- `handle_btc_staking` from `ibc.rs`: loads the config, requires the
btc-staking contract address, translates the three routed sequences (the
slashed-delegations sequence stays empty), and queues exactly one wasm
execute call to the configured address. -/
def handle_btc_staking (st : Storage) (btc_staking : Proto.BtcStakingIbcPacket) :
    Except StdError IbcReceiveResponse := do
  let cfg ← CONFIG_load st
  let btc_staking_addr ←
    option_ok_or (StdError.genericErr "btc_staking contract not set") cfg.btc_staking
  let new_fp ← btc_staking.new_fp.mapM translate_new_fp
  let msg := ExecuteMsg.btcStaking
    new_fp
    (btc_staking.active_del.map translate_active_del)
    []
    (btc_staking.unbonded_del.map translate_unbonded_del)
  let wasm_msg := OutMsg.wasmExecute btc_staking_addr msg []
  .ok
    { ack := StdAck.success []
      messages := [wasm_msg]
      attributes := [("action", "receive_btc_staking")]
      events := [] }

/-! The packet-receive entry point. -/

/-- The decoded packet payload: a tagged union with exactly the two
variants matched in `ibc_packet_receive`. -/
inductive Packet where
  | btcTimestamp (btc_ts : BtcTimestamp)
  | btcStaking (btc_staking : Proto.BtcStakingIbcPacket)
deriving DecidableEq

/-- The decoded packet envelope (`ZoneconciergePacketData`): an optional
tagged-union payload; decoding may leave it unpopulated. -/
structure ZoneconciergePacketData where
  packet : Option Packet
deriving DecidableEq

/-- Modelled from the spec: the Wire Codec collaborator — the
prost-generated `ZoneconciergePacketData::decode` is repository code not
under `src/`, so the byte-level decoder is kept abstract as a function from
raw bytes to a decoded envelope or a decode error. -/
def PacketDecoder : Type :=
  List Nat → Except String ZoneconciergePacketData

/-- The inbound IBC packet as used by `ibc_packet_receive`: raw payload
bytes and the destination channel id. -/
structure IbcPacket where
  data : List Nat
  dest_channel_id : String
deriving DecidableEq

/-- The uninhabited host-level error type of `ibc_packet_receive`
(`cosmwasm_std::Never`). -/
inductive Never
deriving DecidableEq

/-- The dispatch step of `ibc_packet_receive`: the exhaustive match routing
the decoded variant to its handler. -/
def receive_dispatch (process : TimestampProcessor) (st : Storage) :
    Packet → Except StdError IbcReceiveResponse
  | Packet.btcTimestamp btc_ts => handle_btc_timestamp process st btc_ts
  | Packet.btcStaking btc_staking => handle_btc_staking st btc_staking

/-- The decode step with its `map_err` wrapping, as in `ibc_packet_receive`:
a decoder failure becomes a generic error naming the decode failure. -/
def decode_map_err : Except String ZoneconciergePacketData →
    Except StdError ZoneconciergePacketData
  | .ok z => .ok z
  | .error e =>
      .error (StdError.genericErr ("failed to decode ZoneconciergePacketData: " ++ e))

/-- The fallible closure body of `ibc_packet_receive`: decode the envelope,
require a populated variant, and dispatch it to the matching handler. -/
def receive_pipeline (dec : PacketDecoder) (process : TimestampProcessor)
    (st : Storage) (msg : IbcPacket) : Except StdError IbcReceiveResponse := do
  let zc_packet_data ← decode_map_err (dec msg.data)
  let zc_packet ← option_ok_or (StdError.genericErr "empty IBC packet") zc_packet_data.packet
  receive_dispatch process st zc_packet

/-- The error-branch response of `ibc_packet_receive`: a fresh response
carrying only the error acknowledgement and the receive event. -/
def error_ack_response (e : StdError) : IbcReceiveResponse :=
  { ack := StdAck.error ("invalid packet: " ++ stdErrorFmt e)
    messages := []
    attributes := []
    events := [{ ty := "ibc", attributes := [("packet", "receive")] }] }

/-- `ibc_packet_receive` from `ibc.rs`: runs the pipeline and converts any
error into an error acknowledgement; the host-level error type is `Never`. -/
def ibc_packet_receive (dec : PacketDecoder) (process : TimestampProcessor)
    (st : Storage) (msg : IbcPacket) : Except Never IbcReceiveResponse :=
  match receive_pipeline dec process st msg with
  | .ok resp => .ok resp
  | .error e => .ok (error_ack_response e)

/-! Concrete example inputs used by the witnesses. -/

/-- Example finality-provider description used by the witnesses. -/
def example_fp_description : Proto.FinalityProviderDescription :=
  { moniker := "fp", identity := "id", website := "w", security_contact := "s", details := "d" }

/-- Example proto finality-provider record used by the witnesses. -/
def example_proto_fp : Proto.NewFinalityProvider :=
  { description := some example_fp_description,
    commission := "0.5",
    addr := "bbn1fp",
    btc_pk_hex := "ab12",
    pop := some { btc_sig_type := 0, btc_sig := [1, 2] },
    consumer_id := "consumer-1" }

/-- Example staking packet with one finality-provider record. -/
def example_staking_packet : Proto.BtcStakingIbcPacket :=
  { new_fp := [example_proto_fp], active_del := [], unbonded_del := [] }

/-- Example storage holding a config with a staking contract address. -/
def example_staking_storage : Storage :=
  { config := some { btc_staking := some "btc-staking-addr", notify_cosmos_zone := false } }

/-- The translated api finality-provider record for the example input. -/
def example_api_fp : NewFinalityProvider :=
  { description := some { moniker := "fp", identity := "id", website := "w", security_contact := "s", details := "d" },
    commission := { atomics := 500000000000000000 },
    addr := "bbn1fp",
    btc_pk_hex := "ab12",
    pop := some { btc_sig_type := 0, btc_sig := [1, 2] },
    consumer_id := "consumer-1" }

/-- The response `handle_btc_staking` produces on the example inputs. -/
def example_staking_response : IbcReceiveResponse :=
  { ack := StdAck.success []
    messages := [OutMsg.wasmExecute "btc-staking-addr"
      (ExecuteMsg.btcStaking [example_api_fp] [] [] []) []]
    attributes := [("action", "receive_btc_staking")]
    events := [] }

/-! Helper lemmas about the `Except` monad and config loading. -/

/-- Binding a successful `Except` computation applies the continuation. -/
theorem bind_ok_eq {ε α β : Type} (a : α) (f : α → Except ε β) :
    (Except.ok a >>= f) = f a := rfl

/-- Binding a failed `Except` computation short-circuits. -/
theorem bind_error_eq {ε α β : Type} (e : ε) (f : α → Except ε β) :
    ((Except.error e : Except ε α) >>= f) = Except.error e := rfl

/-- Loading the config succeeds with `cfg` exactly when it is stored. -/
theorem CONFIG_load_ok_iff (st : Storage) (cfg : Config) :
    CONFIG_load st = .ok cfg ↔ st.config = some cfg := by
  unfold CONFIG_load
  cases st.config <;> simp

/-- C4: every channel-open message whose proposed ordering is not `Ordered`
is rejected with the unordered-channel error, regardless of the version. -/
theorem channel_open_rejects_unordered (m : IbcChannelOpenMsg)
    (h : m.order ≠ IbcOrder.ordered) :
    ibc_channel_open m = .error ContractError.ibcUnorderedChannel := by
  simp [ibc_channel_open, IBC_ORDERING, h]

/-- Witness for `channel_open_rejects_unordered`: an unordered channel-open
offering the correct version string is still rejected. -/
theorem channel_open_rejects_unordered_witness :
    ibc_channel_open { order := .unordered, counterparty_version := some "zoneconcierge-1" } =
      .error ContractError.ibcUnorderedChannel :=
  channel_open_rejects_unordered
    { order := .unordered, counterparty_version := some "zoneconcierge-1" } (by decide)

/-- C3 counterexample: a channel-open message carrying counterparty
version `"v1"` (different from `IBC_VERSION`) but with `Unordered` ordering
fails with the unordered-channel error, not with a version-mismatch error:
the ordering check runs first. -/
theorem channel_open_wrong_version_not_version_mismatch :
    ibc_channel_open { order := .unordered, counterparty_version := some "v1" } =
      .error ContractError.ibcUnorderedChannel ∧
    ibc_channel_open { order := .unordered, counterparty_version := some "v1" } ≠
      .error (ContractError.ibcInvalidCounterPartyVersion IBC_VERSION) := by
  constructor
  · rfl
  · decide

/-- C3 (amended): for channel-open messages with ordering `Ordered`, a
present counterparty version different from `IBC_VERSION` fails with the
version-mismatch error, while a matching or absent counterparty version
succeeds and returns `IBC_VERSION` as the negotiated version. -/
theorem channel_open_version_negotiation (m : IbcChannelOpenMsg)
    (ho : m.order = IbcOrder.ordered) :
    ((∃ v, m.counterparty_version = some v ∧ v ≠ IBC_VERSION) →
        ibc_channel_open m =
          .error (ContractError.ibcInvalidCounterPartyVersion IBC_VERSION)) ∧
    ((m.counterparty_version = some IBC_VERSION ∨ m.counterparty_version = none) →
        ibc_channel_open m = .ok (some { version := IBC_VERSION })) := by
  constructor
  · rintro ⟨v, hv, hne⟩
    simp [ibc_channel_open, IBC_ORDERING, ho, hv, hne]
  · rintro (hv | hv) <;> simp [ibc_channel_open, IBC_ORDERING, ho, hv]

/-- Witness for `channel_open_version_negotiation`: version `"v1"` is
rejected with the version-mismatch error on an ordered channel, and an
absent counterparty version is accepted with version `IBC_VERSION`. -/
theorem channel_open_version_negotiation_witness :
    ibc_channel_open { order := .ordered, counterparty_version := some "v1" } =
      .error (ContractError.ibcInvalidCounterPartyVersion IBC_VERSION) ∧
    ibc_channel_open { order := .ordered, counterparty_version := none } =
      .ok (some { version := IBC_VERSION }) :=
  ⟨(channel_open_version_negotiation
      { order := .ordered, counterparty_version := some "v1" } rfl).1
      ⟨"v1", rfl, by decide⟩,
   (channel_open_version_negotiation
      { order := .ordered, counterparty_version := none } rfl).2 (Or.inr rfl)⟩

/-- C1: `ibc_packet_receive` is total — it returns `Ok` on every input —
and whenever the decode-dispatch-handle pipeline fails, the returned
response carries an error acknowledgement whose message includes the
formatted error cause. -/
theorem ibc_packet_receive_total_and_error_ack (dec : PacketDecoder)
    (process : TimestampProcessor) (st : Storage) (msg : IbcPacket) :
    (∃ resp, ibc_packet_receive dec process st msg = .ok resp) ∧
    (∀ e, receive_pipeline dec process st msg = .error e →
      ibc_packet_receive dec process st msg = .ok (error_ack_response e) ∧
      (error_ack_response e).ack = StdAck.error ("invalid packet: " ++ stdErrorFmt e) ∧
      (stdErrorFmt e).data <:+: ("invalid packet: " ++ stdErrorFmt e).data) := by
  constructor
  · cases h : receive_pipeline dec process st msg with
    | ok r => exact ⟨r, by simp [ibc_packet_receive, h]⟩
    | error e => exact ⟨error_ack_response e, by simp [ibc_packet_receive, h]⟩
  · intro e he
    refine ⟨by simp [ibc_packet_receive, he], rfl, ?_⟩
    rcases hs : stdErrorFmt e with ⟨l⟩
    exact (List.suffix_append "invalid packet: ".data l).isInfix

/-- Witness for `ibc_packet_receive_total_and_error_ack`: a decoder failure
on concrete input is converted into an error acknowledgement. -/
theorem ibc_packet_receive_total_and_error_ack_witness :
    ibc_packet_receive (fun _ => .error "bad wire data") (fun _ _ => .ok none)
        { config := none } { data := [0], dest_channel_id := "channel-0" } =
      .ok (error_ack_response
        (StdError.genericErr "failed to decode ZoneconciergePacketData: bad wire data")) ∧
    (error_ack_response
        (StdError.genericErr "failed to decode ZoneconciergePacketData: bad wire data")).ack =
      StdAck.error ("invalid packet: " ++
        stdErrorFmt (StdError.genericErr "failed to decode ZoneconciergePacketData: bad wire data")) ∧
    (stdErrorFmt (StdError.genericErr "failed to decode ZoneconciergePacketData: bad wire data")).data <:+:
      ("invalid packet: " ++
        stdErrorFmt (StdError.genericErr "failed to decode ZoneconciergePacketData: bad wire data")).data :=
  (ibc_packet_receive_total_and_error_ack (fun _ => .error "bad wire data") (fun _ _ => .ok none)
    { config := none } { data := [0], dest_channel_id := "channel-0" }).2
    (StdError.genericErr "failed to decode ZoneconciergePacketData: bad wire data") rfl

/-- C2: whenever the pipeline fails, the response returned by
`ibc_packet_receive` carries the error acknowledgement and retains no
outbound messages and no attributes from the failed run. -/
theorem error_branch_retains_no_messages (dec : PacketDecoder)
    (process : TimestampProcessor) (st : Storage) (msg : IbcPacket) (e : StdError)
    (he : receive_pipeline dec process st msg = .error e) :
    ∃ resp, ibc_packet_receive dec process st msg = .ok resp ∧
      resp.ack = StdAck.error ("invalid packet: " ++ stdErrorFmt e) ∧
      resp.messages = [] ∧ resp.attributes = [] :=
  ⟨error_ack_response e, by simp [ibc_packet_receive, he], rfl, rfl, rfl⟩

/-- Witness for `error_branch_retains_no_messages`: with no stored config,
a staking packet fails and the response carries no messages. -/
theorem error_branch_retains_no_messages_witness :
    ∃ resp,
      ibc_packet_receive
          (fun _ => .ok { packet := some (Packet.btcStaking { new_fp := [], active_del := [], unbonded_del := [] }) })
          (fun _ _ => .ok none) { config := none } { data := [1], dest_channel_id := "channel-1" } =
        .ok resp ∧
      resp.ack = StdAck.error ("invalid packet: " ++
        stdErrorFmt (StdError.notFound "babylon_contract::state::config::Config")) ∧
      resp.messages = [] ∧ resp.attributes = [] :=
  error_branch_retains_no_messages
    (fun _ => .ok { packet := some (Packet.btcStaking { new_fp := [], active_del := [], unbonded_del := [] }) })
    (fun _ _ => .ok none) { config := none } { data := [1], dest_channel_id := "channel-1" }
    (StdError.notFound "babylon_contract::state::config::Config") rfl

/-- C5: a staking packet received while the config has no staking contract
address fails in the handler, and the receive entry point turns this into
an error acknowledgement citing the missing routing configuration, with no
outbound messages in the response. -/
theorem staking_unconfigured_error_ack_no_call
    (st : Storage) (cfg : Config) (p : Proto.BtcStakingIbcPacket)
    (dec : PacketDecoder) (process : TimestampProcessor) (msg : IbcPacket)
    (hc : st.config = some cfg) (hn : cfg.btc_staking = none)
    (hdec : dec msg.data = .ok { packet := some (Packet.btcStaking p) }) :
    handle_btc_staking st p = .error (StdError.genericErr "btc_staking contract not set") ∧
    ∃ resp, ibc_packet_receive dec process st msg = .ok resp ∧
      resp.messages = [] ∧
      ∃ m, resp.ack = StdAck.error m ∧ "btc_staking contract not set".data <:+: m.data := by
  have hload : CONFIG_load st = .ok cfg := (CONFIG_load_ok_iff st cfg).mpr hc
  have hfail : handle_btc_staking st p =
      .error (StdError.genericErr "btc_staking contract not set") := by
    simp only [handle_btc_staking, hload, bind_ok_eq, hn, option_ok_or, bind_error_eq]
  have hpipe : receive_pipeline dec process st msg =
      .error (StdError.genericErr "btc_staking contract not set") := by
    simp only [receive_pipeline, hdec, decode_map_err, bind_ok_eq, option_ok_or,
      receive_dispatch]
    exact hfail
  refine ⟨hfail, error_ack_response _, by simp [ibc_packet_receive, hpipe], rfl,
    "invalid packet: " ++ stdErrorFmt (StdError.genericErr "btc_staking contract not set"),
    rfl, by decide⟩

/-- Witness for `staking_unconfigured_error_ack_no_call`: concrete storage
with no staking address and a concrete staking packet. -/
theorem staking_unconfigured_error_ack_no_call_witness :
    handle_btc_staking { config := some { btc_staking := none, notify_cosmos_zone := false } }
        { new_fp := [], active_del := [], unbonded_del := [] } =
      .error (StdError.genericErr "btc_staking contract not set") ∧
    ∃ resp,
      ibc_packet_receive
          (fun _ => .ok { packet := some (Packet.btcStaking { new_fp := [], active_del := [], unbonded_del := [] }) })
          (fun _ _ => .ok none)
          { config := some { btc_staking := none, notify_cosmos_zone := false } }
          { data := [2], dest_channel_id := "channel-2" } = .ok resp ∧
      resp.messages = [] ∧
      ∃ m, resp.ack = StdAck.error m ∧ "btc_staking contract not set".data <:+: m.data :=
  staking_unconfigured_error_ack_no_call
    { config := some { btc_staking := none, notify_cosmos_zone := false } }
    { btc_staking := none, notify_cosmos_zone := false }
    { new_fp := [], active_del := [], unbonded_del := [] }
    (fun _ => .ok { packet := some (Packet.btcStaking { new_fp := [], active_del := [], unbonded_del := [] }) })
    (fun _ _ => .ok none)
    { data := [2], dest_channel_id := "channel-2" }
    rfl rfl rfl

/-- C6: every successful staking-handler run used a stored config with a
staking address, translated the three routed sequences, and produced
exactly one outbound wasm call to that address with an empty
slashed-delegations sequence. -/
theorem staking_configured_single_outbound_call
    (st : Storage) (p : Proto.BtcStakingIbcPacket) (resp : IbcReceiveResponse)
    (h : handle_btc_staking st p = .ok resp) :
    ∃ cfg addr new_fp, st.config = some cfg ∧ cfg.btc_staking = some addr ∧
      p.new_fp.mapM translate_new_fp = .ok new_fp ∧
      resp.messages =
        [OutMsg.wasmExecute addr
          (ExecuteMsg.btcStaking new_fp (p.active_del.map translate_active_del) []
            (p.unbonded_del.map translate_unbonded_del)) []] ∧
      resp.messages.length = 1 := by
  simp only [handle_btc_staking] at h
  cases hcfg : CONFIG_load st with
  | error e => rw [hcfg] at h; simp [bind_error_eq] at h
  | ok cfg =>
    rw [hcfg] at h
    simp only [bind_ok_eq] at h
    cases hbs : cfg.btc_staking with
    | none => rw [hbs] at h; simp [option_ok_or, bind_error_eq] at h
    | some addr =>
      rw [hbs] at h
      simp only [option_ok_or, bind_ok_eq] at h
      cases hmap : p.new_fp.mapM translate_new_fp with
      | error e => rw [hmap] at h; simp [bind_error_eq] at h
      | ok new_fp =>
        rw [hmap] at h
        simp only [bind_ok_eq] at h
        injection h with h2
        refine ⟨cfg, addr, new_fp, (CONFIG_load_ok_iff st cfg).mp hcfg, hbs, ?_, ?_, ?_⟩
        · rfl
        · rw [← h2]
        · rw [← h2]; rfl

/-- Witness for `staking_configured_single_outbound_call`: a configured
address and a one-provider packet produce exactly the translated call. -/
theorem staking_configured_single_outbound_call_witness :
    ∃ cfg addr new_fp,
      example_staking_storage.config = some cfg ∧ cfg.btc_staking = some addr ∧
      example_staking_packet.new_fp.mapM translate_new_fp = .ok new_fp ∧
      example_staking_response.messages =
        [OutMsg.wasmExecute addr
          (ExecuteMsg.btcStaking new_fp
            (example_staking_packet.active_del.map translate_active_del) []
            (example_staking_packet.unbonded_del.map translate_unbonded_del)) []] ∧
      example_staking_response.messages.length = 1 :=
  staking_configured_single_outbound_call example_staking_storage example_staking_packet
    example_staking_response (by decide)

/-- C7: the dispatch match routes the timestamp variant to the timestamp
handler and the staking variant to the staking handler, and the decoded
union is closed: every decoded packet is one of these two variants, so no
unknown-variant case can reach the dispatcher. -/
theorem dispatch_routes_and_union_closed
    (process : TimestampProcessor) (st : Storage) (ts : BtcTimestamp)
    (s : Proto.BtcStakingIbcPacket) (p : Packet) :
    receive_dispatch process st (Packet.btcTimestamp ts) = handle_btc_timestamp process st ts ∧
    receive_dispatch process st (Packet.btcStaking s) = handle_btc_staking st s ∧
    ((∃ t, p = Packet.btcTimestamp t) ∨ (∃ q, p = Packet.btcStaking q)) := by
  refine ⟨rfl, rfl, ?_⟩
  cases p with
  | btcTimestamp t => exact Or.inl ⟨t, rfl⟩
  | btcStaking q => exact Or.inr ⟨q, rfl⟩

/-- C8: a packet that decodes successfully with no populated variant is
answered with an error acknowledgement whose message contains the word
`empty`. -/
theorem empty_packet_error_ack (dec : PacketDecoder) (process : TimestampProcessor)
    (st : Storage) (msg : IbcPacket)
    (h : dec msg.data = .ok { packet := none }) :
    ∃ resp m, ibc_packet_receive dec process st msg = .ok resp ∧
      resp.ack = StdAck.error m ∧
      m = "invalid packet: Generic error: empty IBC packet" ∧
      "empty".data <:+: m.data := by
  have hpipe : receive_pipeline dec process st msg =
      .error (StdError.genericErr "empty IBC packet") := by
    simp only [receive_pipeline, h, decode_map_err, bind_ok_eq, option_ok_or, bind_error_eq]
  exact ⟨error_ack_response _,
    "invalid packet: " ++ stdErrorFmt (StdError.genericErr "empty IBC packet"),
    by simp [ibc_packet_receive, hpipe], rfl, by decide, by decide⟩

/-- Witness for `empty_packet_error_ack`: a decoder yielding an unpopulated
envelope on concrete bytes leads to the empty-packet error acknowledgement. -/
theorem empty_packet_error_ack_witness :
    ∃ resp m,
      ibc_packet_receive (fun _ => .ok { packet := none }) (fun _ _ => .ok none)
          { config := none } { data := [3], dest_channel_id := "channel-3" } = .ok resp ∧
      resp.ack = StdAck.error m ∧
      m = "invalid packet: Generic error: empty IBC packet" ∧
      "empty".data <:+: m.data :=
  empty_packet_error_ack (fun _ => .ok { packet := none }) (fun _ _ => .ok none)
    { config := none } { data := [3], dest_channel_id := "channel-3" } rfl

/-- C9: with a stored config, when the timestamp collaborator yields an
outbound message the handler still succeeds, and the message is included
in the response exactly when the notify flag is set; with the flag unset
the message is dropped. -/
theorem timestamp_notify_flag_gates_message
    (process : TimestampProcessor) (st : Storage) (ts : BtcTimestamp)
    (cfg : Config) (m : BabylonMsg)
    (hc : st.config = some cfg) (hp : process st ts = .ok (some m)) :
    ∃ resp, handle_btc_timestamp process st ts = .ok resp ∧
      (resp.messages = [OutMsg.babylon m] ↔ cfg.notify_cosmos_zone = true) ∧
      (cfg.notify_cosmos_zone = false → resp.messages = []) := by
  have hload : CONFIG_load st = .ok cfg := (CONFIG_load_ok_iff st cfg).mpr hc
  cases hf : cfg.notify_cosmos_zone with
  | true =>
      refine ⟨{ ack := StdAck.success [], messages := [OutMsg.babylon m],
                attributes := [("action", "receive_btc_timestamp")], events := [] },
        ?_, by simp, by simp [hf]⟩
      simp [handle_btc_timestamp, hload, bind_ok_eq, hp, hf]
  | false =>
      refine ⟨{ ack := StdAck.success [], messages := [],
                attributes := [("action", "receive_btc_timestamp")], events := [] },
        ?_, by simp [hf], fun _ => rfl⟩
      simp [handle_btc_timestamp, hload, bind_ok_eq, hp, hf]

/-- Witness for `timestamp_notify_flag_gates_message`: with the flag set
the collaborator message is forwarded; with it unset the handler succeeds
and forwards nothing. -/
theorem timestamp_notify_flag_gates_message_witness :
    (∃ resp,
      handle_btc_timestamp (fun _ _ => .ok (some { payload := "m1" }))
          { config := some { btc_staking := none, notify_cosmos_zone := true } }
          { raw := [7] } = .ok resp ∧
      (resp.messages = [OutMsg.babylon { payload := "m1" }] ↔
        ({ btc_staking := none, notify_cosmos_zone := true } : Config).notify_cosmos_zone = true) ∧
      (({ btc_staking := none, notify_cosmos_zone := true } : Config).notify_cosmos_zone = false →
        resp.messages = [])) ∧
    (∃ resp,
      handle_btc_timestamp (fun _ _ => .ok (some { payload := "m1" }))
          { config := some { btc_staking := none, notify_cosmos_zone := false } }
          { raw := [7] } = .ok resp ∧
      (resp.messages = [OutMsg.babylon { payload := "m1" }] ↔
        ({ btc_staking := none, notify_cosmos_zone := false } : Config).notify_cosmos_zone = true) ∧
      (({ btc_staking := none, notify_cosmos_zone := false } : Config).notify_cosmos_zone = false →
        resp.messages = [])) :=
  ⟨timestamp_notify_flag_gates_message (fun _ _ => .ok (some { payload := "m1" }))
      { config := some { btc_staking := none, notify_cosmos_zone := true } } { raw := [7] }
      { btc_staking := none, notify_cosmos_zone := true } { payload := "m1" } rfl rfl,
   timestamp_notify_flag_gates_message (fun _ _ => .ok (some { payload := "m1" }))
      { config := some { btc_staking := none, notify_cosmos_zone := false } } { raw := [7] }
      { btc_staking := none, notify_cosmos_zone := false } { payload := "m1" } rfl rfl⟩

/-- C10: whenever either handler succeeds, the acknowledgement it returns
is the success variant with an empty data payload. -/
theorem success_ack_payload_empty
    (process : TimestampProcessor) (st : Storage) (ts : BtcTimestamp)
    (s : Proto.BtcStakingIbcPacket) (r1 r2 : IbcReceiveResponse) :
    (handle_btc_timestamp process st ts = .ok r1 → r1.ack = StdAck.success []) ∧
    (handle_btc_staking st s = .ok r2 → r2.ack = StdAck.success []) := by
  constructor
  · intro h
    simp only [handle_btc_timestamp] at h
    cases hcfg : CONFIG_load st with
    | error e => rw [hcfg] at h; simp [bind_error_eq] at h
    | ok cfg =>
      rw [hcfg] at h
      simp only [bind_ok_eq] at h
      cases hp : process st ts with
      | error e => rw [hp] at h; simp [bind_error_eq] at h
      | ok mo =>
        rw [hp] at h
        simp only [bind_ok_eq] at h
        cases mo with
        | none =>
          injection h with h2
          rw [← h2]
        | some m =>
          cases hf : cfg.notify_cosmos_zone with
          | true =>
            rw [hf] at h
            injection h with h2
            rw [← h2]
          | false =>
            rw [hf] at h
            injection h with h2
            rw [← h2]
  · intro h
    simp only [handle_btc_staking] at h
    cases hcfg : CONFIG_load st with
    | error e => rw [hcfg] at h; simp [bind_error_eq] at h
    | ok cfg =>
      rw [hcfg] at h
      simp only [bind_ok_eq] at h
      cases hbs : cfg.btc_staking with
      | none => rw [hbs] at h; simp [option_ok_or, bind_error_eq] at h
      | some addr =>
        rw [hbs] at h
        simp only [option_ok_or, bind_ok_eq] at h
        cases hmap : s.new_fp.mapM translate_new_fp with
        | error e => rw [hmap] at h; simp [bind_error_eq] at h
        | ok new_fp =>
          rw [hmap] at h
          simp only [bind_ok_eq] at h
          injection h with h2
          rw [← h2]

/-- Witness for `success_ack_payload_empty`: concrete successful runs of
both handlers return the success acknowledgement with empty data. -/
theorem success_ack_payload_empty_witness :
    ({ ack := StdAck.success [], messages := [],
       attributes := [("action", "receive_btc_timestamp")],
       events := [] } : IbcReceiveResponse).ack = StdAck.success [] ∧
    example_staking_response.ack = StdAck.success [] :=
  ⟨(success_ack_payload_empty (fun _ _ => .ok none) example_staking_storage { raw := [9] }
      example_staking_packet
      { ack := StdAck.success [], messages := [],
        attributes := [("action", "receive_btc_timestamp")], events := [] }
      example_staking_response).1 (by decide),
   (success_ack_payload_empty (fun _ _ => .ok none) example_staking_storage { raw := [9] }
      example_staking_packet
      { ack := StdAck.success [], messages := [],
        attributes := [("action", "receive_btc_timestamp")], events := [] }
      example_staking_response).2 (by decide)⟩

end BabylonIbc
